import Mathlib

/-!
# Tehreer `Typeface.cpp` — a shallow embedding

The native side of `com.mta.tehreer.graphics.Typeface`
(`tehreer-android/src/main/jni/Typeface.cpp`).

* Every function of the file that the properties below talk about is a Lean
  function with the same name.  A function that calls out of the file (the
  font library, the platform asset API, the shaping engine, `free`) returns,
  next to its C++ result, the list of those calls in program order.
* Pointers are `Option`s (`none` is `nullptr`); dereferencing a null object
  is the `Fault.nullDereference` outcome of an `Except`.
* Machine integers are `Nat`/`Int` with explicit wrap-around.
-/

namespace Tehreer

/-! ## Machine integers -/

/-- Conversion to an unsigned 16-bit integer (`SFGlyphID`, `SFUInt16`). -/
def toUInt16 (n : Nat) : Nat := n % 2 ^ 16

/-- Conversion to an unsigned 32-bit integer (`FT_UInt`, `SFTag`). -/
def toUInt32 (x : Int) : Nat := (x % 2 ^ 32).toNat

/-- Conversion to a signed 16-bit integer (`FT_Short`). -/
def toInt16 (x : Int) : Int := (x + 2 ^ 15) % 2 ^ 16 - 2 ^ 15

/-- Conversion to a signed 32-bit integer (`jint`, `SFInt32`, `int`). -/
def toInt32 (x : Int) : Int := (x + 2 ^ 31) % 2 ^ 32 - 2 ^ 31

/-! ## Constants of the headers included by the file -/

/-- The value `FT_LOAD_NO_SCALE` of `FT_FREETYPE_H` (`1L << 0`). -/
def FT_LOAD_NO_SCALE : Nat := 1

/-- The value `FT_LOAD_VERTICAL_LAYOUT` of `FT_FREETYPE_H` (`1L << 4`). -/
def FT_LOAD_VERTICAL_LAYOUT : Nat := 16

/-- The value `FT_OPEN_MEMORY` of `FT_FREETYPE_H`. -/
def FT_OPEN_MEMORY : Nat := 1

/-- The value `FT_OPEN_STREAM` of `FT_FREETYPE_H`. -/
def FT_OPEN_STREAM : Nat := 2

/-- The value `FT_OPEN_PATHNAME` of `FT_FREETYPE_H`. -/
def FT_OPEN_PATHNAME : Nat := 4

/-- The value `FT_FACE_FLAG_SCALABLE` of `FT_FREETYPE_H` (`1L << 0`). -/
def FT_FACE_FLAG_SCALABLE : Nat := 1

/-- The enumeration `SFFontLayout` of `SFFont.h`. -/
inductive SFFontLayout
  | SFFontLayoutHorizontal
  | SFFontLayoutVertical
  deriving DecidableEq, Repr

/-! ## Calls that leave the file -/

/-- One call from `Typeface.cpp` to a collaborator, with the arguments that
matter.  Handles (`AAsset *`, `FT_Face`, `FT_Stroker`) are numbers. -/
inductive Event
  /-- The call `typeface->lock()`. -/
  | typefaceLock
  /-- The call `typeface->unlock()`. -/
  | typefaceUnlock
  /-- The call `FreeType::mutex().lock()`. -/
  | gatewayLock
  /-- The call `FreeType::mutex().unlock()`. -/
  | gatewayUnlock
  /-- The call `FT_Load_Sfnt_Table(face, tag, offset, buffer, length)`:
  whether `buffer` is non-null, and the value `length` points to (`none` for
  a null `length`). -/
  | FT_Load_Sfnt_Table (tag offset : Nat) (buffer : Bool) (length : Option Nat)
  /-- The call `FT_Get_Char_Index(face, codepoint)`. -/
  | FT_Get_Char_Index (codepoint : Nat)
  /-- The call `FT_Get_Advance(face, gindex, loadFlags, &advance)`. -/
  | FT_Get_Advance (gindex loadFlags : Nat)
  /-- The call `FT_Open_Face(FreeType::library(), args, 0, &face)`. -/
  | FT_Open_Face (flags : Nat)
  /-- The call `FT_Done_Face(face)`. -/
  | FT_Done_Face (face : Nat)
  /-- The call `FT_Stroker_New(FreeType::library(), &stroker)`. -/
  | FT_Stroker_New
  /-- The call `FT_Stroker_Done(stroker)`. -/
  | FT_Stroker_Done (stroker : Nat)
  /-- The call `SFFontCreateWithProtocol(&protocol, this)`. -/
  | SFFontCreateWithProtocol
  /-- The call `SFFontRelease(m_sfFont)`. -/
  | SFFontRelease
  /-- The call `AAssetManager_open(assetManager, path, AASSET_MODE_UNKNOWN)`. -/
  | AAssetManager_open (path : String)
  /-- The call `AAsset_getLength(asset)`. -/
  | AAsset_getLength (asset : Nat)
  /-- The call `AAsset_close(asset)`; `none` is a null asset. -/
  | AAsset_close (asset : Option Nat)
  /-- The call `malloc(sizeof(*assetStream))`. -/
  | mallocStream
  /-- The call `free(assetStream)` of `assetStreamDispose`. -/
  | freeStream
  /-- The call `StreamUtils::toRawBuffer(bridge, stream, &length)`. -/
  | toRawBuffer
  /-- The call `free(m_buffer)`. -/
  | freeBuffer
  /-- The call `LOGW(...)`. -/
  | LOGW (codepoint : Nat)
  deriving DecidableEq, Repr

/-- What a dereference of a null object, or a JNI call on an array that
could not be created, is: the call does not return. -/
inductive Fault
  | nullDereference
  | invalidArray
  deriving DecidableEq, Repr

/-! ## The platform asset and the stream wrapper -/

/-- An opened platform asset (`AAsset *`): its handle and the length
`AAsset_getLength` reports. -/
structure AAsset where
  handle : Nat
  length : Nat
  deriving DecidableEq, Repr

/-- The asset manager: which asset `AAssetManager_open` yields for a path
(`none` is a null result). -/
abbrev AAssetManager := String → Option AAsset

/-- The two stream callbacks the file defines. -/
inductive StreamCallback
  | assetStreamRead
  | assetStreamClose
  deriving DecidableEq, Repr

/-- The fields of `FT_StreamRec` that `assetStreamCreate` sets. -/
structure FT_StreamRec where
  base : Option Nat
  size : Nat
  pos : Nat
  descriptor : Option AAsset
  pathname : Option Nat
  read : Option StreamCallback
  close : Option StreamCallback
  deriving DecidableEq, Repr

/-- The record `FT_Open_Args`. -/
structure FT_Open_Args where
  flags : Nat
  memory_base : Option (List Nat)
  memory_size : Nat
  pathname : Option String
  stream : Option FT_StreamRec
  deriving DecidableEq, Repr

/-! ## The font library -/

/-- An opened face (`FT_FaceRec`): the fields the file reads, the client
stream the face was opened on, and the content of the font that the
library's queries answer from. -/
structure FT_FaceRec where
  /-- The handle, to tell faces apart in the list of calls. -/
  handle : Nat
  face_flags : Nat
  units_per_EM : Nat
  ascender : Int
  descender : Int
  height : Int
  num_glyphs : Int
  underline_position : Int
  underline_thickness : Int
  /-- The stream of the caller the face reads from, when it was opened with
  `FT_OPEN_STREAM`. -/
  stream : Option FT_StreamRec
  /-- The bytes the library serves for a table tag; `none` when it finds no
  such table. -/
  tables : Nat → Option (List Nat)
  /-- The glyph index the character map gives a codepoint. -/
  charIndex : Nat → Nat
  /-- The advance the library computes for a glyph under the given load
  flags; `none` when it reports an error. -/
  advance : Nat → Nat → Option Int

/-- The process-wide library handle `FreeType::library()`, as far as the
file depends on it: what opening a byte source yields, and the stroker a
request for one yields. -/
structure FT_LibraryRec where
  openFace : FT_Open_Args → Option FT_FaceRec
  newStroker : Option Nat

/-- The macro `FT_IS_SCALABLE(face)` of `FT_FREETYPE_H`. -/
def FT_IS_SCALABLE (face : FT_FaceRec) : Bool :=
  face.face_flags &&& FT_FACE_FLAG_SCALABLE != 0

/-- Modelled from the spec: the library's `mapCodepointToGlyph(faceHandle,
codepoint) → glyphIndex` (FreeType's `FT_Get_Char_Index`, declared in
`FT_FREETYPE_H`, outside this repository).  The result is an `FT_UInt`; a
null face has no glyph. -/
def FT_Get_Char_Index (face : Option FT_FaceRec) (codepoint : Nat) : Nat :=
  match face with
  | none => 0
  | some f => f.charIndex codepoint % 2 ^ 32

/-- Modelled from the spec: the library's `getAdvance(faceHandle, flags,
glyphIndex)` (FreeType's `FT_Get_Advance`, declared in `FT_ADVANCES_H`,
outside this repository).  The last argument is the value `*padvance` holds
before the call and the result the value it holds after: an error leaves it
untouched. -/
def FT_Get_Advance (face : Option FT_FaceRec) (gindex loadFlags : Nat) (padvance : Int) : Int :=
  match face with
  | none => padvance
  | some f => (f.advance gindex loadFlags).getD padvance

/-- What `FT_Load_Sfnt_Table` leaves behind: the error flag, the buffer
and the value `*length` holds afterwards. -/
structure LoadResult where
  failed : Bool
  buffer : Option (List Nat)
  length : Option Nat
  deriving DecidableEq, Repr

/-- Modelled from the spec: the library's `loadTable(faceHandle, tag,
buffer|absent, &length)` (FreeType's `FT_Load_Sfnt_Table`, declared in
`FT_TRUETYPE_TABLES_H`, outside this repository), with the rule of the
library's documentation for telling the two kinds of call apart.  A table
the library does not find is an error that writes nothing.  A non-null
`length` that points to 0 makes the call a size query: the table's length
is stored and nothing is copied.  Otherwise up to `*length` bytes of the
table (the whole table for a null `length`) from `offset` on are copied to
the front of `buffer`; copying bytes to a null buffer is a fault. -/
def FT_Load_Sfnt_Table (face : Option FT_FaceRec) (tag offset : Nat)
    (buffer : Option (List Nat)) (length : Option Nat) : Except Fault LoadResult :=
  match face.bind (fun f => f.tables tag) with
  | none => .ok { failed := true, buffer := buffer, length := length }
  | some table =>
    if length = some 0 then
      .ok { failed := false, buffer := buffer, length := some table.length }
    else
      let data := (table.drop offset).take (length.getD table.length)
      match buffer with
      | none =>
        if data.length = 0 then .ok { failed := false, buffer := none, length := length }
        else .error .nullDereference
      | some bytes =>
        .ok { failed := false, buffer := some (data ++ bytes.drop data.length), length := length }

/-- The function `assetStreamClose` (lines 120–128): the stream record it
leaves and the calls it makes. -/
def assetStreamClose (assetStream : FT_StreamRec) : FT_StreamRec × List Event :=
  let asset := assetStream.descriptor
  ({ assetStream with descriptor := none, size := 0, base := none },
   [.AAsset_close (asset.map (fun a => a.handle))])

/-- The library closing a stream: it calls the stream's `close` callback
when there is one (the only one the file installs is `assetStreamClose`). -/
def FT_Stream_Close (stream : Option FT_StreamRec) : List Event :=
  match stream with
  | none => []
  | some s =>
    match s.close with
    | some .assetStreamClose => (assetStreamClose s).2
    | _ => []

/-- The stream of the caller that a face opened from `args` reads from:
`args->stream` when `FT_OPEN_STREAM` is set, none for a memory or path
source (the library then owns its own stream). -/
def clientStream (args : FT_Open_Args) : Option FT_StreamRec :=
  if args.flags &&& FT_OPEN_STREAM != 0 then args.stream else none

/-- Modelled from the spec: the library's `open(byteSourceDescriptor) →
faceHandle | failure` (FreeType's `FT_Open_Face`, outside this repository).
On success the face keeps the caller's stream; on failure the face pointer
is left as it was (null) and the library closes the caller's stream through
its `close` callback before returning the error. -/
def FT_Open_Face (library : FT_LibraryRec) (args : FT_Open_Args) :
    Option FT_FaceRec × List Event :=
  match library.openFace args with
  | some face => (some { face with stream := clientStream args }, [.FT_Open_Face args.flags])
  | none => (none, .FT_Open_Face args.flags :: FT_Stream_Close (clientStream args))

/-- Modelled from the spec: the library's `close(faceHandle)` (FreeType's
`FT_Done_Face`, outside this repository): the face is discarded and the
stream of the caller it was reading from is closed through the stream's
`close` callback; the library does not free the caller's stream record. -/
def FT_Done_Face (face : FT_FaceRec) : List Event :=
  .FT_Done_Face face.handle :: FT_Stream_Close face.stream

/-! ## The typeface -/

/-- The three callbacks of the file, as entries of the protocol. -/
inductive Callback
  | protocolLoadTable
  | protocolGetGlyphIDForCodepoint
  | protocolGetAdvanceForGlyph
  deriving DecidableEq, Repr

/-- The record `SFFontProtocol` of `SFFont.h`. -/
structure SFFontProtocol where
  finalize : Option Callback
  loadTable : Option Callback
  getGlyphIDForCodepoint : Option Callback
  getAdvanceForGlyph : Option Callback
  deriving DecidableEq, Repr

/-- The members of `class Typeface`. -/
structure Typeface where
  m_buffer : Option (List Nat)
  m_ftStream : Option FT_StreamRec
  m_ftFace : Option FT_FaceRec
  m_ftStroker : Option Nat
  m_sfFont : SFFontProtocol

/-- The accessor `Typeface::ftFace()`. -/
def Typeface.ftFace (typeface : Typeface) : Option FT_FaceRec := typeface.m_ftFace

/-! ## The callback protocol -/

/-- What a call of `protocolLoadTable` leaves in its two output
parameters. -/
structure TableOutput where
  buffer : Option (List Nat)
  length : Option Nat
  deriving DecidableEq, Repr

/-- The function `protocolLoadTable` (lines 43–58).  `length` is the value
the in/out parameter points to on entry, `none` for a null pointer. -/
def protocolLoadTable (object : Option Typeface) (tag : Nat) (buffer : Option (List Nat))
    (length : Option Nat) : Except Fault (TableOutput × List Event) :=
  match object with
  | none => .error .nullDereference
  | some typeface =>
    let baseFace := typeface.ftFace
    let tableSize : Nat := 0
    let lengthArg : Option Nat := if length.isSome then some tableSize else none
    match FT_Load_Sfnt_Table baseFace tag 0 buffer lengthArg with
    | .error fault => .error fault
    | .ok loaded =>
      let tableSize := loaded.length.getD tableSize
      .ok ({ buffer := loaded.buffer, length := if length.isSome then some tableSize else none },
           [.typefaceLock, .FT_Load_Sfnt_Table tag 0 buffer.isSome lengthArg, .typefaceUnlock])

/-- The function `protocolGetGlyphIDForCodepoint` (lines 60–78). -/
def protocolGetGlyphIDForCodepoint (object : Option Typeface) (codepoint : Nat) :
    Except Fault (Nat × List Event) :=
  match object with
  | none => .error .nullDereference
  | some typeface =>
    let baseFace := typeface.ftFace
    let glyphID := FT_Get_Char_Index baseFace codepoint
    let called : List Event := [.typefaceLock, .FT_Get_Char_Index codepoint, .typefaceUnlock]
    if glyphID > 0xFFFF then
      .ok (toUInt16 0, called ++ [.LOGW codepoint])
    else
      .ok (toUInt16 glyphID, called)

/-- The function `protocolGetAdvanceForGlyph` (lines 80–100). -/
def protocolGetAdvanceForGlyph (object : Option Typeface) (fontLayout : SFFontLayout)
    (glyphID : Nat) : Except Fault (Int × List Event) :=
  match object with
  | none => .error .nullDereference
  | some typeface =>
    let baseFace := typeface.ftFace
    let glyphAdvance : Int := 0
    let loadFlags : Nat :=
      if fontLayout = .SFFontLayoutVertical then FT_LOAD_NO_SCALE ||| FT_LOAD_VERTICAL_LAYOUT
      else FT_LOAD_NO_SCALE
    let glyphAdvance := FT_Get_Advance baseFace glyphID loadFlags glyphAdvance
    .ok (toInt32 glyphAdvance,
         [.typefaceLock, .FT_Get_Advance glyphID loadFlags, .typefaceUnlock])

/-! ## Opening a typeface -/

/-- The function `assetStreamCreate` (lines 130–153). -/
def assetStreamCreate (assetManager : AAssetManager) (path : String) :
    Option FT_StreamRec × List Event :=
  match assetManager path with
  | none => (none, [.AAssetManager_open path])
  | some asset =>
    let size := asset.length
    if size = 0 then
      (none, [.AAssetManager_open path, .AAsset_getLength asset.handle])
    else
      (some { base := none
              size := size
              pos := 0
              descriptor := some asset
              pathname := none
              read := some .assetStreamRead
              close := some .assetStreamClose },
       [.AAssetManager_open path, .AAsset_getLength asset.handle, .mallocStream])

/-- The function `assetStreamDispose` (lines 155–158). -/
def assetStreamDispose (_assetStream : FT_StreamRec) : List Event := [.freeStream]

/-- The constructor `Typeface::Typeface` (lines 227–240). -/
def Typeface.new (buffer : Option (List Nat)) (ftStream : Option FT_StreamRec)
    (ftFace : Option FT_FaceRec) : Typeface × List Event :=
  let protocol : SFFontProtocol :=
    { finalize := none
      loadTable := some .protocolLoadTable
      getGlyphIDForCodepoint := some .protocolGetGlyphIDForCodepoint
      getAdvanceForGlyph := some .protocolGetAdvanceForGlyph }
  ({ m_buffer := buffer
     m_ftStream := ftStream
     m_ftFace := ftFace
     m_ftStroker := none
     m_sfFont := protocol },
   [.SFFontCreateWithProtocol])

/-- The function `Typeface::createWithArgs` (lines 208–225). -/
def Typeface.createWithArgs (library : FT_LibraryRec) (args : FT_Open_Args) :
    Option Typeface × List Event :=
  let opened := FT_Open_Face library args
  let checked : Option FT_FaceRec × List Event :=
    match opened.1 with
    | some face => if !FT_IS_SCALABLE face then (none, FT_Done_Face face) else (some face, [])
    | none => (none, [])
  let calls := [.gatewayLock] ++ opened.2 ++ checked.2 ++ [.gatewayUnlock]
  match checked.1 with
  | some ftFace =>
    let made := Typeface.new args.memory_base args.stream (some ftFace)
    (some made.1, calls ++ made.2)
  | none => (none, calls)

/-- The function `Typeface::createWithAsset` (lines 160–175). -/
def Typeface.createWithAsset (library : FT_LibraryRec) (assetManager : AAssetManager)
    (path : String) : Option Typeface × List Event :=
  let created := assetStreamCreate assetManager path
  match created.1 with
  | some stream =>
    let args : FT_Open_Args :=
      { flags := FT_OPEN_STREAM
        memory_base := none
        memory_size := 0
        pathname := none
        stream := some stream }
    let made := Typeface.createWithArgs library args
    (made.1, created.2 ++ made.2)
  | none => (none, created.2)

/-- The function `Typeface::createWithFile` (lines 177–187). -/
def Typeface.createWithFile (library : FT_LibraryRec) (path : String) :
    Option Typeface × List Event :=
  let args : FT_Open_Args :=
    { flags := FT_OPEN_PATHNAME
      memory_base := none
      memory_size := 0
      pathname := some path
      stream := none }
  Typeface.createWithArgs library args

/-- Modelled from the spec: `StreamUtils::toRawBuffer` (declared in
`StreamUtils.h`, which is not among the sources) drains the host stream
into a newly allocated buffer and reports its length; it yields no buffer
when draining fails or yields no bytes.  The host stream is the bytes
draining it yields, `none` when reading it fails. -/
def StreamUtils.toRawBuffer (stream : Option (List Nat)) : Option (List Nat) × Nat :=
  match stream with
  | none => (none, 0)
  | some bytes => if bytes.length = 0 then (none, 0) else (some bytes, bytes.length)

/-- The function `Typeface::createFromStream` (lines 189–206). -/
def Typeface.createFromStream (library : FT_LibraryRec) (stream : Option (List Nat)) :
    Option Typeface × List Event :=
  let drained := StreamUtils.toRawBuffer stream
  let length := drained.2
  match drained.1 with
  | some buffer =>
    let args : FT_Open_Args :=
      { flags := FT_OPEN_MEMORY
        memory_base := some buffer
        memory_size := length
        pathname := none
        stream := none }
    let made := Typeface.createWithArgs library args
    (made.1, .toRawBuffer :: made.2)
  | none => (none, [.toRawBuffer])

/-! ## Disposal and the stroking helper -/

/-- The destructor `Typeface::~Typeface` (lines 242–266). -/
def Typeface.destructor (typeface : Typeface) : List Event :=
  [.SFFontRelease]
  ++ (match typeface.m_ftStroker with
      | some stroker => [.FT_Stroker_Done stroker]
      | none => [])
  ++ (match typeface.m_ftFace with
      | some face => [.gatewayLock] ++ FT_Done_Face face ++ [.gatewayUnlock]
      | none => [])
  ++ (match typeface.m_ftStream with
      | some stream => assetStreamDispose stream
      | none => [])
  ++ (match typeface.m_buffer with
      | some _ => [.freeBuffer]
      | none => [])

/-- The function `dispose` (lines 325–329): `delete` of a null handle does
nothing. -/
def dispose (typefaceHandle : Option Typeface) : List Event :=
  match typefaceHandle with
  | some typeface => typeface.destructor
  | none => []

/-- The function `Typeface::ftStroker` (lines 268–284): the stroker it
returns, the typeface afterwards, and the calls made. -/
def Typeface.ftStroker (library : FT_LibraryRec) (typeface : Typeface) :
    (Option Nat × Typeface) × List Event :=
  match typeface.m_ftStroker with
  | none =>
    let created := library.newStroker
    ((created, { typeface with m_ftStroker := created }), [.FT_Stroker_New])
  | some stroker => ((some stroker, typeface), [])

/-! ## Table copy and metrics -/

/-- The function `copyTable` (lines 331–353).  `uninitialised` is the value
the local `length` happens to hold before the first call.  The result is
the byte array returned (`none` for `nullptr`) and the calls made. -/
def copyTable (typefaceHandle : Option Typeface) (tableTag : Int) (uninitialised : Nat) :
    Except Fault (Option (List Nat) × List Event) :=
  let typeface := typefaceHandle
  let inputTag := toUInt32 tableTag
  match protocolLoadTable typeface inputTag none (some uninitialised) with
  | .error fault => .error fault
  | .ok queried =>
    let length := queried.1.length.getD uninitialised
    if length > 0 then
      let dataLength := toInt32 length
      if dataLength < 0 then .error .invalidArray
      else
        let dataArray := List.replicate dataLength.toNat 0
        match protocolLoadTable none inputTag (some dataArray) none with
        | .error fault => .error fault
        | .ok filled => .ok (filled.1.buffer, queried.2 ++ filled.2)
    else .ok (none, queried.2)

/-- The function `getDescent` (lines 373–380). -/
def getDescent (typefaceHandle : Option Typeface) : Except Fault Int :=
  match typefaceHandle with
  | none => .error .nullDereference
  | some typeface =>
    match typeface.ftFace with
    | none => .error .nullDereference
    | some baseFace =>
      let descender := toInt16 baseFace.descender
      .ok (toInt32 (-descender))

/-! ## The Gateway mutex along a list of calls -/

/-- Whether a call works on the process-wide library handle: opening a
face, closing a face, creating a stroker. -/
def Event.usesLibrary : Event → Bool
  | .FT_Open_Face _ => true
  | .FT_Done_Face _ => true
  | .FT_Stroker_New => true
  | _ => false

/-- Whether every call on the library handle in the list is made while the
Gateway mutex is held; `held` says whether it is held at the start. -/
def gatewayGuarded : Bool → List Event → Bool
  | _, [] => true
  | _, .gatewayLock :: rest => gatewayGuarded true rest
  | _, .gatewayUnlock :: rest => gatewayGuarded false rest
  | held, call :: rest => (held || !call.usesLibrary) && gatewayGuarded held rest

/-! ## Worked inputs -/

/-- The tag `head` as a number. -/
def headTag : Nat := 0x68656164

/-- A small font: codepoint 65 maps to glyph 36, codepoint 66 to the
out-of-range index 70000, everything else to no glyph; glyph 36 advances
1024 units horizontally and 2048 vertically; the only table is an 8-byte
`head`. -/
def exampleFace (face_flags : Nat) (descender : Int) (stream : Option FT_StreamRec) :
    FT_FaceRec :=
  { handle := 7
    face_flags := face_flags
    units_per_EM := 2048
    ascender := 1900
    descender := descender
    height := 2400
    num_glyphs := 40
    underline_position := -150
    underline_thickness := 100
    stream := stream
    tables := fun tag => if tag = headTag then some [0, 1, 0, 0, 0, 1, 0, 0] else none
    charIndex := fun codepoint => if codepoint = 65 then 36 else if codepoint = 66 then 70000 else 0
    advance := fun gindex loadFlags =>
      if gindex = 36 then some (if loadFlags = 17 then 2048 else 1024) else none }

/-- A typeface on `exampleFace` opened from a path, without a stroker. -/
def exampleTypeface (descender : Int) : Typeface :=
  (Typeface.new none none (some (exampleFace 1 descender none))).1

/-- A library that opens every byte source as `exampleFace` with the given
face flags, and hands out stroker 3. -/
def exampleLibrary (face_flags : Nat) : FT_LibraryRec :=
  { openFace := fun _ => some (exampleFace face_flags (-500) none)
    newStroker := some 3 }

/-- An asset manager holding one asset, of the given length, under every
path. -/
def exampleAssets (length : Nat) : AAssetManager :=
  fun _ => some { handle := 11, length := length }

/-! ## Properties -/

/-- C1: for every codepoint and every glyph index `g` the library returns
for it, `protocolGetGlyphIDForCodepoint` returns `g` when `g ≤ 0xFFFF` and 0
when `g > 0xFFFF` (logging a warning); so the result is not `g` truncated
to 16 bits whenever that truncation is not 0, and a library result of 0 is
returned as 0. -/
theorem protocolGetGlyphIDForCodepoint_range (typeface : Typeface) (codepoint g : Nat)
    (hg : FT_Get_Char_Index typeface.ftFace codepoint = g) :
    protocolGetGlyphIDForCodepoint (some typeface) codepoint =
        .ok (if g ≤ 0xFFFF then g else 0,
             [.typefaceLock, .FT_Get_Char_Index codepoint, .typefaceUnlock]
               ++ if g ≤ 0xFFFF then [] else [.LOGW codepoint])
      ∧ (0xFFFF < g → g % 2 ^ 16 ≠ 0 →
          ∀ calls, protocolGetGlyphIDForCodepoint (some typeface) codepoint
            ≠ .ok (g % 2 ^ 16, calls))
      ∧ (g = 0 → protocolGetGlyphIDForCodepoint (some typeface) codepoint =
          .ok (0, [.typefaceLock, .FT_Get_Char_Index codepoint, .typefaceUnlock])) := by
  have main : protocolGetGlyphIDForCodepoint (some typeface) codepoint =
        .ok (if g ≤ 0xFFFF then g else 0,
             [.typefaceLock, .FT_Get_Char_Index codepoint, .typefaceUnlock]
               ++ if g ≤ 0xFFFF then [] else [.LOGW codepoint]) := by
    unfold protocolGetGlyphIDForCodepoint
    simp only [hg]
    by_cases h : g ≤ 0xFFFF
    · have h2 : ¬ g > 0xFFFF := by omega
      have h3 : toUInt16 g = g := by unfold toUInt16; omega
      simp [h, h2, h3]
    · have h2 : g > 0xFFFF := by omega
      simp [h, h2, toUInt16]
  refine ⟨main, ?_, ?_⟩
  · intro hbig hne calls hcontra
    rw [main] at hcontra
    have h : ¬ g ≤ 0xFFFF := by omega
    simp only [h, if_false] at hcontra
    injection hcontra with hpair
    have := congrArg Prod.fst hpair
    simp at this
    omega
  · intro hz
    rw [main]
    subst hz
    simp

/-- C1, at codepoint 66 of the example font, whose library index 70000
does not fit 16 bits. -/
theorem protocolGetGlyphIDForCodepoint_range_witness :
    protocolGetGlyphIDForCodepoint (some (exampleTypeface (-500))) 66 =
      .ok (0, [.typefaceLock, .FT_Get_Char_Index 66, .typefaceUnlock, .LOGW 66]) :=
  (protocolGetGlyphIDForCodepoint_range (exampleTypeface (-500)) 66 70000 rfl).1

/-- C7: for every glyph and layout, `protocolGetAdvanceForGlyph` makes one
library query, for exactly that glyph, under the typeface lock, with load
flags `FT_LOAD_NO_SCALE`, or-ed with `FT_LOAD_VERTICAL_LAYOUT` exactly for
the vertical layout, and nothing else; it returns the advance the library
reports for that glyph and those flags converted to 32 bits, hence unchanged
when it fits a signed 32-bit integer, and 0 when the library reports none. -/
theorem protocolGetAdvanceForGlyph_query (typeface : Typeface) (face : FT_FaceRec)
    (fontLayout : SFFontLayout) (glyphID : Nat) (hface : typeface.ftFace = some face) :
    ∃ loadFlags : Nat,
      loadFlags = (FT_LOAD_NO_SCALE |||
        if fontLayout = .SFFontLayoutVertical then FT_LOAD_VERTICAL_LAYOUT else 0)
      ∧ loadFlags &&& FT_LOAD_NO_SCALE = FT_LOAD_NO_SCALE
      ∧ (loadFlags &&& FT_LOAD_VERTICAL_LAYOUT = FT_LOAD_VERTICAL_LAYOUT
          ↔ fontLayout = .SFFontLayoutVertical)
      ∧ protocolGetAdvanceForGlyph (some typeface) fontLayout glyphID =
          .ok (toInt32 ((face.advance glyphID loadFlags).getD 0),
               [.typefaceLock, .FT_Get_Advance glyphID loadFlags, .typefaceUnlock])
      ∧ (∀ a : Int, face.advance glyphID loadFlags = some a → -2 ^ 31 ≤ a → a < 2 ^ 31 →
          protocolGetAdvanceForGlyph (some typeface) fontLayout glyphID =
            .ok (a, [.typefaceLock, .FT_Get_Advance glyphID loadFlags, .typefaceUnlock]))
      ∧ (face.advance glyphID loadFlags = none →
          protocolGetAdvanceForGlyph (some typeface) fontLayout glyphID =
            .ok (0, [.typefaceLock, .FT_Get_Advance glyphID loadFlags, .typefaceUnlock])) := by
  have main : ∀ loadFlags : Nat,
      loadFlags = (FT_LOAD_NO_SCALE |||
        if fontLayout = .SFFontLayoutVertical then FT_LOAD_VERTICAL_LAYOUT else 0) →
      protocolGetAdvanceForGlyph (some typeface) fontLayout glyphID =
          .ok (toInt32 ((face.advance glyphID loadFlags).getD 0),
               [.typefaceLock, .FT_Get_Advance glyphID loadFlags, .typefaceUnlock]) := by
    intro loadFlags hflags
    subst hflags
    unfold protocolGetAdvanceForGlyph
    cases fontLayout <;> simp [hface, FT_Get_Advance, FT_LOAD_NO_SCALE, FT_LOAD_VERTICAL_LAYOUT]
  refine ⟨_, rfl, ?_, ?_, main _ rfl, ?_, ?_⟩
  · cases fontLayout <;> decide
  · cases fontLayout <;> decide
  · intro a ha hlo hhi
    rw [main _ rfl, ha]
    have : toInt32 a = a := by unfold toInt32; omega
    simp [this]
  · intro hnone
    rw [main _ rfl, hnone]
    simp [toInt32]

/-- C7, at glyph 36 of the example font in vertical layout: flags 17, the
vertical advance 2048. -/
theorem protocolGetAdvanceForGlyph_query_witness :
    ∃ loadFlags : Nat,
      loadFlags = (FT_LOAD_NO_SCALE |||
        if SFFontLayout.SFFontLayoutVertical = .SFFontLayoutVertical
        then FT_LOAD_VERTICAL_LAYOUT else 0)
      ∧ protocolGetAdvanceForGlyph (some (exampleTypeface (-500))) .SFFontLayoutVertical 36 =
          .ok (2048, [.typefaceLock, .FT_Get_Advance 36 17, .typefaceUnlock]) := by
  obtain ⟨loadFlags, hflags, -, -, -, hfit, -⟩ :=
    protocolGetAdvanceForGlyph_query (exampleTypeface (-500)) (exampleFace 1 (-500) none)
      .SFFontLayoutVertical 36 rfl
  have h17 : loadFlags = 17 := by rw [hflags]; decide
  refine ⟨loadFlags, hflags, ?_⟩
  have := hfit 2048 (by rw [h17]; rfl) (by norm_num) (by norm_num)
  rw [h17] at this
  exact this

/-- C9: for every face whose descender field `d` is a signed 16-bit value,
`getDescent` returns exactly `-d`, which lies in the signed 32-bit range (no
wrap-around, also for `d = -32768`) and is non-negative when `d` is
negative. -/
theorem getDescent_negates (typeface : Typeface) (face : FT_FaceRec)
    (hface : typeface.ftFace = some face)
    (hlo : -32768 ≤ face.descender) (hhi : face.descender ≤ 32767) :
    getDescent (some typeface) = .ok (-face.descender)
      ∧ -2 ^ 31 ≤ -face.descender ∧ -face.descender < 2 ^ 31
      ∧ (face.descender < 0 → 0 < -face.descender) := by
  refine ⟨?_, by omega, by omega, by omega⟩
  unfold getDescent
  have h16 : toInt16 face.descender = face.descender := by unfold toInt16; omega
  have h32 : toInt32 (-face.descender) = -face.descender := by unfold toInt32; omega
  simp [hface, h16, h32]

/-- C9, at the most negative descender: `getDescent` is 32768. -/
theorem getDescent_negates_witness :
    getDescent (some (exampleTypeface (-32768))) = .ok 32768 :=
  (getDescent_negates (exampleTypeface (-32768)) (exampleFace 1 (-32768) none) rfl
    (by decide) (by decide)).1

/-- The library closing a stream makes no call other than closing the
asset: in particular none that closes a face or touches the Gateway
mutex. -/
theorem FT_Stream_Close_calls (stream : Option FT_StreamRec) :
    FT_Stream_Close stream = [] ∨ ∃ asset, FT_Stream_Close stream = [.AAsset_close asset] := by
  unfold FT_Stream_Close
  cases stream with
  | none => exact Or.inl rfl
  | some s =>
    cases hc : s.close with
    | none => exact Or.inl (by simp only [hc])
    | some callback =>
      cases callback with
      | assetStreamRead => exact Or.inl (by simp only [hc])
      | assetStreamClose =>
        exact Or.inr ⟨s.descriptor.map (fun a => a.handle), by simp only [hc, assetStreamClose]⟩

/-- The calls of a successful `FT_Open_Face`. -/
theorem FT_Open_Face_calls_of_some (library : FT_LibraryRec) (args : FT_Open_Args)
    (face : FT_FaceRec) (hopen : (FT_Open_Face library args).1 = some face) :
    (FT_Open_Face library args).2 = [.FT_Open_Face args.flags] := by
  unfold FT_Open_Face at hopen ⊢
  cases hlib : library.openFace args with
  | none => rw [hlib] at hopen; exact absurd hopen (by simp)
  | some f => rfl

/-- The calls of a failed `FT_Open_Face`. -/
theorem FT_Open_Face_calls_of_none (library : FT_LibraryRec) (args : FT_Open_Args)
    (hopen : (FT_Open_Face library args).1 = none) :
    (FT_Open_Face library args).2 =
      .FT_Open_Face args.flags :: FT_Stream_Close (clientStream args) := by
  unfold FT_Open_Face at hopen ⊢
  cases hlib : library.openFace args with
  | none => rfl
  | some f => rw [hlib] at hopen; exact absurd hopen (by simp)

/-- `createWithArgs` when the library fails to open the source. -/
theorem createWithArgs_of_failed (library : FT_LibraryRec) (args : FT_Open_Args)
    (hopen : (FT_Open_Face library args).1 = none) :
    Typeface.createWithArgs library args =
      (none, [.gatewayLock, .FT_Open_Face args.flags]
        ++ FT_Stream_Close (clientStream args) ++ [.gatewayUnlock]) := by
  unfold Typeface.createWithArgs
  simp only [hopen, FT_Open_Face_calls_of_none library args hopen]
  simp

/-- `createWithArgs` when the opened face is not scalable. -/
theorem createWithArgs_of_unscalable (library : FT_LibraryRec) (args : FT_Open_Args)
    (face : FT_FaceRec) (hopen : (FT_Open_Face library args).1 = some face)
    (hs : FT_IS_SCALABLE face = false) :
    Typeface.createWithArgs library args =
      (none, [.gatewayLock, .FT_Open_Face args.flags, .FT_Done_Face face.handle]
        ++ FT_Stream_Close face.stream ++ [.gatewayUnlock]) := by
  unfold Typeface.createWithArgs
  simp only [hopen, FT_Open_Face_calls_of_some library args face hopen, hs, FT_Done_Face]
  simp

/-- `createWithArgs` when the opened face is scalable. -/
theorem createWithArgs_of_scalable (library : FT_LibraryRec) (args : FT_Open_Args)
    (face : FT_FaceRec) (hopen : (FT_Open_Face library args).1 = some face)
    (hs : FT_IS_SCALABLE face = true) :
    Typeface.createWithArgs library args =
      (some (Typeface.new args.memory_base args.stream (some face)).1,
       [.gatewayLock, .FT_Open_Face args.flags, .gatewayUnlock, .SFFontCreateWithProtocol]) := by
  unfold Typeface.createWithArgs
  simp only [hopen, FT_Open_Face_calls_of_some library args face hopen, hs, Typeface.new]
  simp

/-- What a Typeface returned by `createWithArgs` records. -/
theorem createWithArgs_records (library : FT_LibraryRec) (args : FT_Open_Args)
    (typeface : Typeface) (h : (Typeface.createWithArgs library args).1 = some typeface) :
    typeface.m_buffer = args.memory_base ∧ typeface.m_ftStream = args.stream
      ∧ typeface.m_ftFace = (FT_Open_Face library args).1 ∧ typeface.m_ftStroker = none := by
  cases hopen : (FT_Open_Face library args).1 with
  | none => rw [createWithArgs_of_failed library args hopen] at h; exact absurd h (by simp)
  | some face =>
    cases hs : FT_IS_SCALABLE face with
    | false =>
      rw [createWithArgs_of_unscalable library args face hopen hs] at h
      exact absurd h (by simp)
    | true =>
      rw [createWithArgs_of_scalable library args face hopen hs] at h
      simp only [Typeface.new, Option.some.injEq] at h
      subst h
      exact ⟨rfl, rfl, rfl, rfl⟩

/-- A face the library opens reads from the stream of the caller exactly
when the source is a stream. -/
theorem FT_Open_Face_stream (library : FT_LibraryRec) (args : FT_Open_Args)
    (face : FT_FaceRec) (hopen : (FT_Open_Face library args).1 = some face) :
    face.stream = clientStream args := by
  unfold FT_Open_Face at hopen
  cases hlib : library.openFace args with
  | none => rw [hlib] at hopen; exact absurd hopen (by simp)
  | some f =>
    rw [hlib] at hopen
    simp only [Option.some.injEq] at hopen
    subst hopen
    rfl

/-- The stream record `assetStreamCreate` returns is built on the opened
asset, which is not empty, with `assetStreamClose` as its close callback. -/
theorem assetStreamCreate_some (assetManager : AAssetManager) (path : String)
    (stream : FT_StreamRec) (h : (assetStreamCreate assetManager path).1 = some stream) :
    ∃ asset, assetManager path = some asset ∧ asset.length ≠ 0
      ∧ stream.descriptor = some asset ∧ stream.close = some .assetStreamClose := by
  unfold assetStreamCreate at h
  cases hopen : assetManager path with
  | none => rw [hopen] at h; exact absurd h (by simp)
  | some asset =>
    rw [hopen] at h
    by_cases hz : asset.length = 0
    · simp [hz] at h
    · simp only [hz, if_false, Option.some.injEq] at h
      subst h
      exact ⟨asset, rfl, hz, rfl, rfl⟩

/-- C5: `createWithArgs` returns a Typeface exactly when the library opens
a face and that face is scalable.  When the face opens but is not scalable,
nothing is returned and the calls are: lock the Gateway mutex, open, close
that face (with the stream close the library performs), unlock — so the
face is closed exactly once, before the one unlock.  A returned Typeface
records the descriptor's memory buffer, its stream and the opened face; for
the path variant buffer and stream are both absent. -/
theorem createWithArgs_contract (library : FT_LibraryRec) (args : FT_Open_Args) :
    ((Typeface.createWithArgs library args).1.isSome = true
        ↔ ∃ face, (FT_Open_Face library args).1 = some face ∧ FT_IS_SCALABLE face = true)
      ∧ (∀ face, (FT_Open_Face library args).1 = some face → FT_IS_SCALABLE face = false →
          (Typeface.createWithArgs library args).1.isSome = false
          ∧ (Typeface.createWithArgs library args).2 =
              [.gatewayLock, .FT_Open_Face args.flags, .FT_Done_Face face.handle]
                ++ FT_Stream_Close face.stream ++ [.gatewayUnlock]
          ∧ (Typeface.createWithArgs library args).2.count (.FT_Done_Face face.handle) = 1
          ∧ (Typeface.createWithArgs library args).2.count .gatewayUnlock = 1)
      ∧ (∀ typeface, (Typeface.createWithArgs library args).1 = some typeface →
          typeface.m_buffer = args.memory_base ∧ typeface.m_ftStream = args.stream
          ∧ typeface.m_ftFace = (FT_Open_Face library args).1
          ∧ typeface.m_ftStroker = none)
      ∧ (∀ path typeface, (Typeface.createWithFile library path).1 = some typeface →
          typeface.m_buffer = none ∧ typeface.m_ftStream = none) := by
  refine ⟨?_, ?_, createWithArgs_records library args, ?_⟩
  · cases hopen : (FT_Open_Face library args).1 with
    | none => rw [createWithArgs_of_failed library args hopen]; simp
    | some face =>
      cases hs : FT_IS_SCALABLE face with
      | false => rw [createWithArgs_of_unscalable library args face hopen hs]; simp [hs]
      | true => rw [createWithArgs_of_scalable library args face hopen hs]; simp [hs]
  · intro face hopen hs
    rw [createWithArgs_of_unscalable library args face hopen hs]
    refine ⟨rfl, rfl, ?_, ?_⟩ <;>
      rcases FT_Stream_Close_calls face.stream with h | ⟨asset, h⟩ <;> rw [h] <;>
        simp [List.count_cons]
  · intro path typeface h
    have := createWithArgs_records library _ typeface h
    exact ⟨this.1, this.2.1⟩

/-- C5, on a library whose faces are not scalable, opened on an asset
stream: no Typeface, and the face is closed (which closes the asset) between
lock and unlock. -/
theorem createWithArgs_contract_witness :
    (Typeface.createWithAsset (exampleLibrary 0) (exampleAssets 5) "a.ttf").1.isSome = false
      ∧ (Typeface.createWithAsset (exampleLibrary 0) (exampleAssets 5) "a.ttf").2 =
          [.AAssetManager_open "a.ttf", .AAsset_getLength 11, .mallocStream,
           .gatewayLock, .FT_Open_Face 2, .FT_Done_Face 7, .AAsset_close (some 11),
           .gatewayUnlock] := by
  have h := (createWithArgs_contract (exampleLibrary 0)
    { flags := FT_OPEN_STREAM, memory_base := none, memory_size := 0, pathname := none,
      stream := (assetStreamCreate (exampleAssets 5) "a.ttf").1 }).2.1
      { exampleFace 0 (-500) none with
        stream := (assetStreamCreate (exampleAssets 5) "a.ttf").1 } rfl rfl
  exact ⟨h.1, by rw [show (Typeface.createWithAsset (exampleLibrary 0) (exampleAssets 5) "a.ttf").2
      = [.AAssetManager_open "a.ttf", .AAsset_getLength 11, .mallocStream]
        ++ (Typeface.createWithArgs (exampleLibrary 0)
          { flags := FT_OPEN_STREAM, memory_base := none, memory_size := 0, pathname := none,
            stream := (assetStreamCreate (exampleAssets 5) "a.ttf").1 }).2 from rfl, h.2.1]; rfl⟩

/-- C8: for a Typeface produced by any of the three open entry points
(with or without a stroker created since), `dispose` makes these calls in
this order: release the shaping-engine font; release the stroker if there is
one; lock the Gateway mutex, close the face, unlock; then release the byte
source.  The asset variant closes its asset once (the library does, while
closing the face) and frees the stream wrapper once; the owned-buffer
variant frees its buffer once; the path variant releases nothing further. -/
theorem dispose_order (library : FT_LibraryRec) (stroker : Option Nat) :
    (∀ assetManager path typeface,
        (Typeface.createWithAsset library assetManager path).1 = some typeface →
        ∃ asset face, assetManager path = some asset ∧ typeface.m_ftFace = some face
          ∧ dispose (some { typeface with m_ftStroker := stroker }) =
              [.SFFontRelease] ++ (stroker.map Event.FT_Stroker_Done).toList
                ++ [.gatewayLock, .FT_Done_Face face.handle, .AAsset_close (some asset.handle),
                    .gatewayUnlock, .freeStream])
      ∧ (∀ path typeface,
          (Typeface.createWithFile library path).1 = some typeface →
          ∃ face, typeface.m_ftFace = some face
            ∧ dispose (some { typeface with m_ftStroker := stroker }) =
                [.SFFontRelease] ++ (stroker.map Event.FT_Stroker_Done).toList
                  ++ [.gatewayLock, .FT_Done_Face face.handle, .gatewayUnlock])
      ∧ (∀ stream typeface,
          (Typeface.createFromStream library stream).1 = some typeface →
          ∃ face, typeface.m_ftFace = some face
            ∧ dispose (some { typeface with m_ftStroker := stroker }) =
                [.SFFontRelease] ++ (stroker.map Event.FT_Stroker_Done).toList
                  ++ [.gatewayLock, .FT_Done_Face face.handle, .gatewayUnlock, .freeBuffer]) := by
  have hface : ∀ (args : FT_Open_Args) (typeface : Typeface),
      (Typeface.createWithArgs library args).1 = some typeface →
      ∃ face, typeface.m_ftFace = some face ∧ face.stream = clientStream args
        ∧ typeface.m_buffer = args.memory_base ∧ typeface.m_ftStream = args.stream := by
    intro args typeface h
    obtain ⟨hb, hs, hf, -⟩ := createWithArgs_records library args typeface h
    cases hopen : (FT_Open_Face library args).1 with
    | none => rw [createWithArgs_of_failed library args hopen] at h; exact absurd h (by simp)
    | some face =>
      exact ⟨face, by rw [hf, hopen], FT_Open_Face_stream library args face hopen, hb, hs⟩
  refine ⟨?_, ?_, ?_⟩
  · intro assetManager path typeface h
    unfold Typeface.createWithAsset at h
    cases hcreate : (assetStreamCreate assetManager path).1 with
    | none => simp only [hcreate] at h; exact absurd h (by simp)
    | some s =>
      simp only [hcreate] at h
      obtain ⟨asset, hasset, -, hdesc, hclose⟩ := assetStreamCreate_some assetManager path s hcreate
      obtain ⟨face, hf, hstream, hb, hs⟩ := hface _ typeface h
      refine ⟨asset, face, hasset, hf, ?_⟩
      have hcs : face.stream = some s := by
        rw [hstream]; simp [clientStream, FT_OPEN_STREAM]
      cases stroker <;>
        simp [dispose, Typeface.destructor, hf, hb, hs, FT_Done_Face, FT_Stream_Close, hcs,
          hclose, assetStreamClose, hdesc, assetStreamDispose]
  · intro path typeface h
    unfold Typeface.createWithFile at h
    obtain ⟨face, hf, hstream, hb, hs⟩ := hface _ typeface h
    refine ⟨face, hf, ?_⟩
    have hcs : face.stream = none := by
      rw [hstream]; simp [clientStream, FT_OPEN_STREAM, FT_OPEN_PATHNAME]
    cases stroker <;>
      simp [dispose, Typeface.destructor, hf, hb, hs, FT_Done_Face, FT_Stream_Close, hcs]
  · intro stream typeface h
    unfold Typeface.createFromStream at h
    cases hdrain : (StreamUtils.toRawBuffer stream).1 with
    | none => simp only [hdrain] at h; exact absurd h (by simp)
    | some buffer =>
      simp only [hdrain] at h
      obtain ⟨face, hf, hstream, hb, hs⟩ := hface _ typeface h
      refine ⟨face, hf, ?_⟩
      have hcs : face.stream = none := by
        rw [hstream]; simp [clientStream, FT_OPEN_STREAM, FT_OPEN_MEMORY]
      cases stroker <;>
        simp [dispose, Typeface.destructor, hf, hb, hs, FT_Done_Face, FT_Stream_Close, hcs]

/-- C8, on the example library: a Typeface opened from an asset, a
stroker created since, is disposed by exactly these calls. -/
theorem dispose_order_witness :
    ∃ typeface, (Typeface.createWithAsset (exampleLibrary 1) (exampleAssets 5) "a.ttf").1
        = some typeface
      ∧ dispose (some { typeface with m_ftStroker := some 3 }) =
          [.SFFontRelease, .FT_Stroker_Done 3, .gatewayLock, .FT_Done_Face 7,
           .AAsset_close (some 11), .gatewayUnlock, .freeStream] := by
  refine ⟨(Typeface.new none (assetStreamCreate (exampleAssets 5) "a.ttf").1
    (some { exampleFace 1 (-500) none with
      stream := (assetStreamCreate (exampleAssets 5) "a.ttf").1 })).1, rfl, ?_⟩
  obtain ⟨asset, face, hasset, hf, hd⟩ :=
    (dispose_order (exampleLibrary 1) (some 3)).1 (exampleAssets 5) "a.ttf" _ rfl
  simp only [exampleAssets, Option.some.injEq] at hasset
  simp only [Typeface.new, Option.some.injEq] at hf
  subst hasset
  subst hf
  exact hd

/-- The calls the library makes when it closes a stream are guarded
whatever the state of the Gateway mutex. -/
theorem gatewayGuarded_FT_Stream_Close (held : Bool) (stream : Option FT_StreamRec)
    (rest : List Event) :
    gatewayGuarded held (FT_Stream_Close stream ++ rest) = gatewayGuarded held rest := by
  rcases FT_Stream_Close_calls stream with h | ⟨asset, h⟩ <;> rw [h] <;>
    simp [gatewayGuarded, Event.usesLibrary]

/-- C10 as stated fails: on a Typeface without a stroker, with the Gateway
mutex not held, `ftStroker` passes the library handle to `FT_Stroker_New`
and never locks the Gateway mutex. -/
theorem ftStroker_unguarded :
    (Typeface.ftStroker (exampleLibrary 1) (exampleTypeface (-500))).2 = [.FT_Stroker_New]
      ∧ gatewayGuarded false
          (Typeface.ftStroker (exampleLibrary 1) (exampleTypeface (-500))).2 = false :=
  ⟨rfl, rfl⟩

/-- C10, amended: the face open in `createWithArgs` and the face close in
the destructor are made only while the Gateway mutex is held, whatever its
state on entry; `ftStroker` never locks the Gateway mutex, so its call of
`FT_Stroker_New` on the library handle is made under the mutex only when the
caller holds it already. -/
theorem gateway_discipline (library : FT_LibraryRec) (args : FT_Open_Args)
    (typeface : Typeface) (held : Bool) :
    gatewayGuarded held (Typeface.createWithArgs library args).2 = true
      ∧ gatewayGuarded held typeface.destructor = true
      ∧ Event.gatewayLock ∉ (Typeface.ftStroker library typeface).2
      ∧ (gatewayGuarded held (Typeface.ftStroker library typeface).2 = true
          ↔ (held = true ∨ typeface.m_ftStroker ≠ none)) := by
  refine ⟨?_, ?_, ?_, ?_⟩
  · cases hopen : (FT_Open_Face library args).1 with
    | none =>
      rw [createWithArgs_of_failed library args hopen]
      simp only [List.cons_append, List.nil_append, gatewayGuarded]
      simp [gatewayGuarded, Event.usesLibrary, gatewayGuarded_FT_Stream_Close]
    | some face =>
      cases hs : FT_IS_SCALABLE face with
      | false =>
        rw [createWithArgs_of_unscalable library args face hopen hs]
        simp only [List.cons_append, List.nil_append, gatewayGuarded]
        simp [gatewayGuarded, Event.usesLibrary, gatewayGuarded_FT_Stream_Close]
      | true =>
        rw [createWithArgs_of_scalable library args face hopen hs]
        simp [gatewayGuarded, Event.usesLibrary]
  · unfold Typeface.destructor
    cases typeface.m_ftStroker <;> cases typeface.m_ftFace <;> cases typeface.m_ftStream <;>
      cases typeface.m_buffer <;>
      simp [gatewayGuarded, Event.usesLibrary, FT_Done_Face, assetStreamDispose,
        gatewayGuarded_FT_Stream_Close]
  · unfold Typeface.ftStroker
    cases typeface.m_ftStroker <;> simp
  · unfold Typeface.ftStroker
    cases typeface.m_ftStroker <;> cases held <;> simp [gatewayGuarded, Event.usesLibrary]

/-- A call of `protocolLoadTable` with a length output is a size query,
whatever the length holds and whether or not a buffer is given. -/
theorem protocolLoadTable_size_query (typeface : Typeface) (tag : Nat)
    (buffer : Option (List Nat)) (L : Nat) :
    protocolLoadTable (some typeface) tag buffer (some L) =
      .ok ({ buffer := buffer
             length := some (((typeface.ftFace.bind (fun f => f.tables tag)).map
               List.length).getD 0) },
           [.typefaceLock, .FT_Load_Sfnt_Table tag 0 buffer.isSome (some 0),
            .typefaceUnlock]) := by
  unfold protocolLoadTable FT_Load_Sfnt_Table
  cases htable : typeface.ftFace.bind (fun f => f.tables tag) with
  | none => simp [htable]
  | some table => simp [htable]

/-- C6 as stated fails: called on the 8-byte `head` table with a present
4-byte buffer and a length holding 4, `protocolLoadTable` passes the library
a length of 0, not 4; the library copies nothing and the length comes back
as 8. -/
theorem protocolLoadTable_ignores_limit :
    protocolLoadTable (some (exampleTypeface (-500))) headTag (some [9, 9, 9, 9]) (some 4) =
        .ok ({ buffer := some [9, 9, 9, 9], length := some 8 },
             [.typefaceLock, .FT_Load_Sfnt_Table headTag 0 true (some 0), .typefaceUnlock])
      ∧ Event.FT_Load_Sfnt_Table headTag 0 true (some 4) ∉
          [Event.typefaceLock, .FT_Load_Sfnt_Table headTag 0 true (some 0),
           .typefaceUnlock] :=
  ⟨rfl, by decide⟩

/-- C6, amended: whenever the length output is present, whatever value `L`
it holds and whether or not a buffer is given, `protocolLoadTable` passes the
library a length of 0, which makes the call a size query: the buffer is left
as it was and the table's length (0 when the library finds no table) is
written to the length output.  With a present buffer and an absent length
output the library is given no limit and copies the whole table to the
front of the buffer. -/
theorem protocolLoadTable_modes (typeface : Typeface) (tag : Nat) :
    (∀ (buffer : Option (List Nat)) (L : Nat),
        protocolLoadTable (some typeface) tag buffer (some L) =
          .ok ({ buffer := buffer
                 length := some (((typeface.ftFace.bind (fun f => f.tables tag)).map
                   List.length).getD 0) },
               [.typefaceLock, .FT_Load_Sfnt_Table tag 0 buffer.isSome (some 0),
                .typefaceUnlock]))
      ∧ (∀ bytes : List Nat,
          protocolLoadTable (some typeface) tag (some bytes) none =
            .ok ({ buffer := some
                     (match typeface.ftFace.bind (fun f => f.tables tag) with
                      | some table => table ++ bytes.drop table.length
                      | none => bytes)
                   length := none },
                 [.typefaceLock, .FT_Load_Sfnt_Table tag 0 true none, .typefaceUnlock])) := by
  refine ⟨protocolLoadTable_size_query typeface tag, ?_⟩
  intro bytes
  unfold protocolLoadTable FT_Load_Sfnt_Table
  cases htable : typeface.ftFace.bind (fun f => f.tables tag) with
  | none => simp [htable]
  | some table => simp [htable]

/-- What `copyTable` does for a table of positive length. -/
theorem copyTable_of_positive (typeface : Typeface) (tableTag : Int) (uninitialised : Nat)
    (table : List Nat)
    (htable : typeface.ftFace.bind (fun f => f.tables (toUInt32 tableTag)) = some table)
    (hn : 0 < table.length) :
    copyTable (some typeface) tableTag uninitialised =
      .error (if toInt32 table.length < 0 then .invalidArray else .nullDereference) := by
  have hq := protocolLoadTable_size_query typeface (toUInt32 tableTag) none uninitialised
  rw [htable] at hq
  simp only [Option.map_some', Option.getD_some] at hq
  unfold copyTable
  simp only [hq, Option.getD_some]
  have hpos : table.length > 0 := hn
  simp only [hpos, if_true]
  by_cases hneg : toInt32 (table.length : Int) < 0
  · simp [hneg]
  · simp [hneg, protocolLoadTable]

/-- C2 fails on the code: for a table the size query reports with a length
`n > 0`, `copyTable` makes its second call of `protocolLoadTable` on a null
object instead of the typeface, so it returns no byte array at all: the call
ends in the null dereference (or, for a length that is negative as a `jint`,
on the array that could not be created). -/
theorem copyTable_fill_faults (typeface : Typeface) (tableTag : Int) (uninitialised : Nat)
    (table : List Nat)
    (htable : typeface.ftFace.bind (fun f => f.tables (toUInt32 tableTag)) = some table)
    (hn : 0 < table.length) :
    (∃ calls, protocolLoadTable (some typeface) (toUInt32 tableTag) none (some uninitialised)
        = .ok ({ buffer := none, length := some table.length }, calls))
      ∧ copyTable (some typeface) tableTag uninitialised =
          .error (if toInt32 table.length < 0 then .invalidArray else .nullDereference) := by
  have hq := protocolLoadTable_size_query typeface (toUInt32 tableTag) none uninitialised
  rw [htable] at hq
  simp only [Option.map_some', Option.getD_some] at hq
  exact ⟨⟨_, hq⟩, copyTable_of_positive typeface tableTag uninitialised table htable hn⟩

/-- C2's failing input: the 8-byte `head` table of the example font. -/
theorem copyTable_fill_faults_witness :
    copyTable (some (exampleTypeface (-500))) 0x68656164 0 = .error .nullDereference :=
  (copyTable_fill_faults (exampleTypeface (-500)) 0x68656164 0 [0, 1, 0, 0, 0, 1, 0, 0]
    rfl (by decide)).2

/-- C3: `copyTable` returns `nullptr` exactly when the library finds no
table for the tag or the table has length zero; it never returns a byte
array of length 0; and for a table the library does not find the size query
reports 0. -/
theorem copyTable_absent_iff (typeface : Typeface) (tableTag : Int) (uninitialised : Nat) :
    ((∃ calls, copyTable (some typeface) tableTag uninitialised = .ok (none, calls))
        ↔ (typeface.ftFace.bind (fun f => f.tables (toUInt32 tableTag)) = none
            ∨ typeface.ftFace.bind (fun f => f.tables (toUInt32 tableTag)) = some []))
      ∧ (∀ calls, copyTable (some typeface) tableTag uninitialised ≠ .ok (some [], calls))
      ∧ (typeface.ftFace.bind (fun f => f.tables (toUInt32 tableTag)) = none →
          ∃ calls, protocolLoadTable (some typeface) (toUInt32 tableTag) none
            (some uninitialised) = .ok ({ buffer := none, length := some 0 }, calls)) := by
  have hq := protocolLoadTable_size_query typeface (toUInt32 tableTag) none uninitialised
  cases htable : typeface.ftFace.bind (fun f => f.tables (toUInt32 tableTag)) with
  | none =>
    rw [htable] at hq
    simp only [Option.map_none', Option.getD_none] at hq
    have hc : copyTable (some typeface) tableTag uninitialised =
        .ok (none, [.typefaceLock, .FT_Load_Sfnt_Table (toUInt32 tableTag) 0 false (some 0),
          .typefaceUnlock]) := by
      unfold copyTable
      simp [hq]
    refine ⟨⟨fun _ => Or.inl rfl, fun _ => ⟨_, hc⟩⟩, ?_, fun _ => ⟨_, hq⟩⟩
    intro calls hcontra
    rw [hc] at hcontra
    simp at hcontra
  | some table =>
    rw [htable] at hq
    simp only [Option.map_some', Option.getD_some] at hq
    by_cases hnil : table = []
    · subst hnil
      have hc : copyTable (some typeface) tableTag uninitialised =
          .ok (none, [.typefaceLock, .FT_Load_Sfnt_Table (toUInt32 tableTag) 0 false (some 0),
            .typefaceUnlock]) := by
        unfold copyTable
        simp [hq]
      refine ⟨⟨fun _ => Or.inr rfl, fun _ => ⟨_, hc⟩⟩, ?_, fun h => absurd h (by simp)⟩
      intro calls hcontra
      rw [hc] at hcontra
      simp at hcontra
    · have hpos : 0 < table.length := List.length_pos.mpr hnil
      have hc := copyTable_of_positive typeface tableTag uninitialised table htable hpos
      refine ⟨⟨?_, ?_⟩, ?_, fun h => absurd h (by simp)⟩
      · rintro ⟨calls, h⟩
        rw [hc] at h
        exact absurd h (by simp)
      · intro h
        rcases h with h | h
        · exact absurd h (by simp)
        · exact absurd (Option.some.inj h) hnil
      · intro calls hcontra
        rw [hc] at hcontra
        exact absurd hcontra (by simp)

/-- C3, on the example font: the tag `zzzz` has no table and `copyTable`
returns `nullptr` after the size query alone. -/
theorem copyTable_absent_iff_witness :
    ∃ calls, copyTable (some (exampleTypeface (-500))) 0x7A7A7A7A 0 = .ok (none, calls) :=
  (copyTable_absent_iff (exampleTypeface (-500)) 0x7A7A7A7A 0).1.mpr (Or.inl rfl)

/-- C4 fails on the code.  An asset that opens but reports length zero is
never closed: `createWithAsset` returns no Typeface after the calls
`AAssetManager_open` and `AAsset_getLength` alone.  A buffer drained from a
stream that the library then fails to open is never freed: `createFromStream`
returns no Typeface and makes no `free` call. -/
theorem open_failure_leaks (library : FT_LibraryRec) (assetManager : AAssetManager)
    (path : String) (asset : AAsset) (bytes : List Nat)
    (hasset : assetManager path = some asset) (hempty : asset.length = 0)
    (hbytes : bytes ≠ []) (hfail : ∀ args, library.openFace args = none) :
    (Typeface.createWithAsset library assetManager path).1.isSome = false
      ∧ (Typeface.createWithAsset library assetManager path).2 =
          [.AAssetManager_open path, .AAsset_getLength asset.handle]
      ∧ Event.AAsset_close (some asset.handle) ∉
          (Typeface.createWithAsset library assetManager path).2
      ∧ (Typeface.createFromStream library (some bytes)).1.isSome = false
      ∧ (Typeface.createFromStream library (some bytes)).2 =
          [.toRawBuffer, .gatewayLock, .FT_Open_Face FT_OPEN_MEMORY, .gatewayUnlock]
      ∧ Event.freeBuffer ∉ (Typeface.createFromStream library (some bytes)).2 := by
  have h1 : Typeface.createWithAsset library assetManager path =
      (none, [.AAssetManager_open path, .AAsset_getLength asset.handle]) := by
    unfold Typeface.createWithAsset assetStreamCreate
    simp [hasset, hempty]
  have hlen : bytes.length ≠ 0 := by
    intro h
    exact hbytes (List.length_eq_zero.mp h)
  have hopen : ∀ args, (FT_Open_Face library args).1 = none := by
    intro args
    unfold FT_Open_Face
    rw [hfail args]
  have h2 : Typeface.createFromStream library (some bytes) =
      (none, [.toRawBuffer, .gatewayLock, .FT_Open_Face FT_OPEN_MEMORY, .gatewayUnlock]) := by
    unfold Typeface.createFromStream StreamUtils.toRawBuffer
    simp only [hlen, if_false]
    rw [createWithArgs_of_failed library _ (hopen _)]
    simp [clientStream, FT_Stream_Close, FT_OPEN_MEMORY, FT_OPEN_STREAM]
  rw [h1, h2]
  simp

/-- C4's failing inputs: an empty asset, and a stream of three bytes that
the library does not open. -/
theorem open_failure_leaks_witness :
    (Typeface.createWithAsset { openFace := fun _ => none, newStroker := none }
        (exampleAssets 0) "a.ttf").2 = [.AAssetManager_open "a.ttf", .AAsset_getLength 11]
      ∧ (Typeface.createFromStream { openFace := fun _ => none, newStroker := none }
          (some [1, 2, 3])).2 =
          [.toRawBuffer, .gatewayLock, .FT_Open_Face FT_OPEN_MEMORY, .gatewayUnlock] :=
  have h := open_failure_leaks { openFace := fun _ => none, newStroker := none }
    (exampleAssets 0) "a.ttf" { handle := 11, length := 0 } [1, 2, 3] rfl rfl (by simp)
    (fun _ => rfl)
  ⟨h.2.1, h.2.2.2.2.1⟩

end Tehreer
